import Mathlib

/-!
Shallow embedding of the HeySol API client (heysol-api-client) and proofs
about its specified behaviour.

Embedded from the repository sources:
* `src/heysol/models/__init__.py` — pydantic request/response models and
  `HeySolConfig` (validators, defaults, aliases);
* `src/cli/common.py` — `load_config` (explicit-argument overrides on top of
  `HeySolConfig.from_env`).

The unified facade (`heysol/client.py`), the MCP client
(`heysol/clients/mcp_client.py`) and the API client's identifier check
(`heysol/clients/api_client.py`) are not part of the source tree available
here; where a claim depends on them, the corresponding definition is
modelled from the specification's words and marked as such in its doc
comment.
-/

namespace HeySol

/-- Error kinds of the library, mirroring `heysol/exceptions.py` as used by
the tests: `ValidationError` (input validation, raised before any network
attempt), a transport/network error (`HeySolError` wrapping remote failures),
a protocol-unavailable error, and a plain Python runtime error (e.g. the
`ValueError` of `int()` on a non-numeric string). -/
inductive ClientError where
  | validation (msg : String)
  | transport (msg : String)
  | mcpUnavailable (msg : String)
  | runtime (msg : String)
  deriving Repr, DecidableEq

/-- `True` exactly on the `validation` constructor. -/
def ClientError.isValidation : ClientError → Bool
  | .validation _ => true
  | _ => false

/-- `Except.isOk`, spelled out so concrete evaluations reduce. -/
def isOk {ε α : Type} : Except ε α → Bool
  | .ok _ => true
  | .error _ => false

/-- Python's `str.startswith`, embedded structurally over the character
list (the core `String.startsWith` does not reduce inside the kernel). -/
def strStartsWith (s p : String) : Bool :=
  p.data.isPrefixOf s.data

/-- Whitespace as recognised by Python's `str.strip`. -/
def isSpaceChar (c : Char) : Bool :=
  c == ' ' || c == '\t' || c == '\n' || c == '\r'

/-- Python's `str.strip`, embedded structurally over the character list
(the core `String.trim` does not reduce inside the kernel). -/
def strTrim (s : String) : String :=
  ⟨((s.data.dropWhile isSpaceChar).reverse.dropWhile isSpaceChar).reverse⟩

-- Default constants of `src/heysol/models/__init__.py`.

def DEFAULT_BASE_URL : String := "https://core.heysol.ai/api/v1"

def DEFAULT_SOURCE : String := "heysol-api-client"

def DEFAULT_MCP_URL : String :=
  "https://core.heysol.ai/api/v1/mcp?source=" ++ DEFAULT_SOURCE

def DEFAULT_PROFILE_URL : String := "https://core.heysol.ai/api/profile"

/-- Configuration record, after successful validation
(`HeySolConfig` in `src/heysol/models/__init__.py`). -/
structure HeySolConfig where
  api_key : Option String
  base_url : String
  mcp_url : String
  profile_url : String
  source : String
  timeout : Int
  deriving Repr, DecidableEq

/-- Constructing a `HeySolConfig`: pydantic runs the field constraint
`ge=1, le=300` on `timeout` and the `validate_api_key_format` validator
(`api_key` must start with `"rc_pat_"` when it is not `None`); on success
the supplied values are stored unchanged. -/
def HeySolConfig.build (api_key : Option String) (base_url mcp_url
    profile_url source : String) (timeout : Int) :
    Except ClientError HeySolConfig :=
  if timeout < 1 ∨ 300 < timeout then
    .error (.validation "Input should be within the timeout bounds")
  else
    match api_key with
    | some k =>
        if strStartsWith k "rc_pat_" then
          .ok ⟨some k, base_url, mcp_url, profile_url, source, timeout⟩
        else
          .error (.validation "API key must start with 'rc_pat_'")
    | none => .ok ⟨none, base_url, mcp_url, profile_url, source, timeout⟩

/-- Constructing with every argument left at its pydantic default. -/
def HeySolConfig.buildDefaults : Except ClientError HeySolConfig :=
  HeySolConfig.build none DEFAULT_BASE_URL DEFAULT_MCP_URL
    DEFAULT_PROFILE_URL DEFAULT_SOURCE 60

/-! ## Request models (`src/heysol/models/__init__.py`) -/

/-- `IngestRequest`: internal (snake_case) field names; the wire names are
the pydantic aliases `episodeBody`, `referenceTime`, `sessionId`, `spaceId`.
`metadata` is a JSON object, embedded as an association list of string
values. -/
structure IngestRequest where
  episode_body : String
  reference_time : String
  metadata : List (String × String)
  source : String
  session_id : String
  space_id : Option String
  deriving Repr, DecidableEq

/-- Default value of `reference_time` in `IngestRequest`. -/
def DEFAULT_REFERENCE_TIME : String := "2023-11-07T05:31:56Z"

/-- Constructing an `IngestRequest` by field name: pydantic enforces
`min_length=1` on `episode_body` and on `source`, in declaration order. -/
def IngestRequest.build (episode_body reference_time : String)
    (metadata : List (String × String)) (source session_id : String)
    (space_id : Option String) : Except ClientError IngestRequest :=
  if episode_body = "" then
    .error (.validation "String should have at least 1 character: episode_body")
  else if source = "" then
    .error (.validation "String should have at least 1 character: source")
  else
    .ok ⟨episode_body, reference_time, metadata, source, session_id, space_id⟩

/-- `SearchRequest`: `query` has `min_length=1`; `space_ids` defaults to `[]`
and `include_invalidated` to `False`. -/
structure SearchRequest where
  query : String
  space_ids : List String
  include_invalidated : Bool
  deriving Repr, DecidableEq

/-- Constructing a `SearchRequest`. -/
def SearchRequest.build (query : String) (space_ids : List String)
    (include_invalidated : Bool) : Except ClientError SearchRequest :=
  if query = "" then
    .error (.validation "String should have at least 1 character: query")
  else
    .ok ⟨query, space_ids, include_invalidated⟩

/-- `CreateSpaceRequest`: `name` has `min_length=1`; `description` defaults
to the empty string. -/
structure CreateSpaceRequest where
  name : String
  description : String
  deriving Repr, DecidableEq

/-- Constructing a `CreateSpaceRequest`. -/
def CreateSpaceRequest.build (name description : String) :
    Except ClientError CreateSpaceRequest :=
  if name = "" then
    .error (.validation "String should have at least 1 character: name")
  else
    .ok ⟨name, description⟩

/-- `RegisterWebhookRequest`: in the source, `url` is a plain `str` field
with no format constraint (`url: str = Field(..., description="Webhook URL")`);
only `secret` carries `min_length=1`. -/
structure RegisterWebhookRequest where
  url : String
  secret : String
  deriving Repr, DecidableEq

/-- Constructing a `RegisterWebhookRequest`: the source validates only that
`secret` is non-empty; any string whatsoever is accepted for `url`. -/
def RegisterWebhookRequest.build (url secret : String) :
    Except ClientError RegisterWebhookRequest :=
  if secret = "" then
    .error (.validation "String should have at least 1 character: secret")
  else
    .ok ⟨url, secret⟩

/-- `UpdateWebhookRequest`: `url` is again a plain `str` field; `events`
must be a non-empty list (its `validate_events` validator); `secret` has
`min_length=1`. -/
structure UpdateWebhookRequest where
  url : String
  events : List String
  secret : String
  active : Bool
  deriving Repr, DecidableEq

/-- Constructing an `UpdateWebhookRequest`, fields validated in
declaration order (`url`, `events`, `secret`, `active`). -/
def UpdateWebhookRequest.build (url : String) (events : List String)
    (secret : String) (active : Bool) : Except ClientError UpdateWebhookRequest :=
  if events = [] then
    .error (.validation "Events list cannot be empty")
  else if secret = "" then
    .error (.validation "String should have at least 1 character: secret")
  else
    .ok ⟨url, events, secret, active⟩

/-! ## Wire representation of the aliased model (`IngestRequest`)

`IngestRequest` is the one model with an aliasing scheme
(`model_config = ConfigDict(validate_by_name=True)` plus per-field
aliases); `model_dump(by_alias=True)` produces a JSON object keyed by the
aliases, and `model_validate` accepts both alias and field name. -/

/-- A small JSON value universe: strings, `null`, and string-valued
objects are all the ingestion payload uses. -/
inductive JValue where
  | jnull
  | jstr (s : String)
  | jobj (fields : List (String × JValue))
  deriving Repr

/-- The `metadata` dictionary as a JSON object. -/
def metaToJ (m : List (String × String)) : JValue :=
  .jobj (m.map fun p => (p.1, .jstr p.2))

/-- Reading the bindings of a string-valued JSON object. -/
def jFieldsToMeta : List (String × JValue) → Option (List (String × String))
  | [] => some []
  | p :: fs =>
      match p.2, jFieldsToMeta fs with
      | .jstr s, some rest => some ((p.1, s) :: rest)
      | _, _ => none

/-- Reading the `metadata` dictionary back from a JSON value. -/
def jToMeta : JValue → Option (List (String × String))
  | .jobj fs => jFieldsToMeta fs
  | _ => none

/-- Lookup of a key in a JSON object (first binding wins, as in a dict). -/
def jlookup (fields : List (String × JValue)) (key : String) : Option JValue :=
  (fields.find? fun p => p.1 == key).map fun p => p.2

/-- Lookup by wire alias first, then by field name
(`validate_by_alias` and `validate_by_name` both active). -/
def lookup2 (fields : List (String × JValue)) (a b : String) : Option JValue :=
  match jlookup fields a with
  | some v => some v
  | none => jlookup fields b

/-- A required string field with `min_length=1`. -/
def reqMinStr (fields : List (String × JValue)) (a b : String) :
    Except ClientError String :=
  match lookup2 fields a b with
  | some (.jstr s) =>
      if s = "" then .error (.validation ("String should have at least 1 character: " ++ a))
      else .ok s
  | some _ => .error (.validation ("Input should be a valid string: " ++ a))
  | none => .error (.validation ("Field required: " ++ a))

/-- An optional string field with a default. -/
def optStr (fields : List (String × JValue)) (a b d : String) :
    Except ClientError String :=
  match lookup2 fields a b with
  | some (.jstr s) => .ok s
  | some _ => .error (.validation ("Input should be a valid string: " ++ a))
  | none => .ok d

/-- An optional, nullable string field (default `None`). -/
def optNullStr (fields : List (String × JValue)) (a b : String) :
    Except ClientError (Option String) :=
  match lookup2 fields a b with
  | some (.jstr s) => .ok (some s)
  | some .jnull => .ok none
  | some _ => .error (.validation ("Input should be a valid string: " ++ a))
  | none => .ok none

/-- The optional `metadata` object (default `dict()`). -/
def optMetadata (fields : List (String × JValue)) :
    Except ClientError (List (String × String)) :=
  match lookup2 fields "metadata" "metadata" with
  | some v =>
      match jToMeta v with
      | some m => .ok m
      | none => .error (.validation "Input should be a valid dictionary: metadata")
  | none => .ok []

/-- `model_dump(by_alias=True)` of an `IngestRequest`: a JSON object keyed
by the wire aliases, `space_id = None` serialized as `null`. -/
def IngestRequest.dumpByAlias (r : IngestRequest) : List (String × JValue) :=
  [("episodeBody", .jstr r.episode_body),
   ("referenceTime", .jstr r.reference_time),
   ("metadata", metaToJ r.metadata),
   ("source", .jstr r.source),
   ("sessionId", .jstr r.session_id),
   ("spaceId", match r.space_id with
               | some s => .jstr s
               | none => .jnull)]

/-- `IngestRequest.model_validate` on a JSON object: each field is read by
alias or by name, required fields must be present, `min_length=1` is
re-checked, defaults fill the absent optionals. -/
def IngestRequest.parseWire (fields : List (String × JValue)) :
    Except ClientError IngestRequest := do
  let body ← reqMinStr fields "episodeBody" "episode_body"
  let rt ← optStr fields "referenceTime" "reference_time" DEFAULT_REFERENCE_TIME
  let md ← optMetadata fields
  let src ← reqMinStr fields "source" "source"
  let sid ← optStr fields "sessionId" "session_id" ""
  let spid ← optNullStr fields "spaceId" "space_id"
  return ⟨body, rt, md, src, sid, spid⟩

/-! ## Environment and the CLI configuration loader -/

/-- The environment variables consulted by `HeySolConfig.from_env`
(`src/heysol/models/__init__.py`); `none` means the variable is unset. -/
structure Env where
  heysol_api_key : Option String
  heysol_base_url : Option String
  heysol_mcp_url : Option String
  heysol_profile_url : Option String
  heysol_source : Option String
  heysol_timeout : Option String
  deriving Repr, DecidableEq

/-- Python `os.getenv(X) or default`: the default is used when the variable
is unset or set to the empty string (falsy). -/
def pyOr (v : Option String) (d : String) : String :=
  match v with
  | some s => if s = "" then d else s
  | none => d

/-- Python truthiness of an optional string. -/
def pyTruthy (v : Option String) : Bool :=
  match v with
  | some s => !(s == "")
  | none => false

/-- `int(timeout_str) if timeout_str else 60`: falsy (unset or empty)
yields 60; a non-numeric string raises `ValueError`. -/
def parseTimeoutEnv (v : Option String) : Except ClientError Int :=
  match v with
  | some s =>
      if s = "" then .ok 60
      else
        match s.toInt? with
        | some n => .ok n
        | none => .error (.runtime ("invalid literal for int: " ++ s))
  | none => .ok 60

/-- `HeySolConfig.from_env`: the API key is passed through verbatim
(including a set-but-empty value), every other string field falls back to
its default when the variable is falsy, and the result goes through the
pydantic constructor (validators included). -/
def HeySolConfig.fromEnv (e : Env) : Except ClientError HeySolConfig :=
  match parseTimeoutEnv e.heysol_timeout with
  | .error err => .error err
  | .ok t =>
      HeySolConfig.build e.heysol_api_key
        (pyOr e.heysol_base_url DEFAULT_BASE_URL)
        (pyOr e.heysol_mcp_url DEFAULT_MCP_URL)
        (pyOr e.heysol_profile_url DEFAULT_PROFILE_URL)
        (pyOr e.heysol_source DEFAULT_SOURCE)
        t

/-- `if arg: cfg.field = arg` — a truthy explicit argument overrides the
current string value; a falsy one (absent or empty) leaves it unchanged. -/
def overrideStr (cur : String) (arg : Option String) : String :=
  match arg with
  | some s => if s = "" then cur else s
  | none => cur

/-- The same override for the optional `api_key` field. -/
def overrideKey (cur : Option String) (arg : Option String) : Option String :=
  match arg with
  | some s => if s = "" then cur else some s
  | none => cur

/-- `if not config.api_key: config.api_key = os.getenv("HEYSOL_API_KEY")` —
a falsy current key is replaced by the raw environment value. -/
def fillKey (cur : Option String) (env : Option String) : Option String :=
  match cur with
  | some s => if s = "" then env else some s
  | none => env

/-- `load_config` from `src/cli/common.py`: build the config from the
environment, then apply the truthy explicit overrides for `api_key`,
`base_url` and `source` by plain attribute assignment (pydantic does not
re-validate assignments), then re-read the API key from the environment
when still falsy. -/
def load_config (e : Env) (api_key base_url source : Option String) :
    Except ClientError HeySolConfig :=
  match HeySolConfig.fromEnv e with
  | .error err => .error err
  | .ok cfg =>
      .ok { cfg with
        api_key := fillKey (overrideKey cfg.api_key api_key) e.heysol_api_key,
        base_url := overrideStr cfg.base_url base_url,
        source := overrideStr cfg.source source }

/-! ## Protocol transport (MCP) and the unified facade

The implementation files `heysol/clients/mcp_client.py` and
`heysol/client.py` are not part of the source tree available here; the
definitions below are modelled from the specification (sections 2, 4.1,
4.2 and 7) and are marked as such. -/

/-- The protocol-transport session: an opaque session identifier plus the
mapping of discovered tool names (the metadata part plays no role in any
claim and is omitted). -/
structure MCPClient where
  session_id : String
  tools : List String
  deriving Repr, DecidableEq

/-- `is_mcp_available`: a session exists together with a non-empty tool
mapping. -/
def MCPClient.is_mcp_available (c : MCPClient) : Bool :=
  !(c.session_id == "") && !c.tools.isEmpty

/-- Modelled from the spec: `HeySolMCPClient.__init__`
(`heysol/clients/mcp_client.py`) is missing from the source tree.
Spec section 4.1: construction first validates the API key, then performs
the handshake; any failure raises (a `ValidationError` for key rejection,
a transport error for a failed handshake) and no partial state is kept;
success stores the session identifier and populates the tool mapping.
The arguments stand for the remote outcomes: `api_key_validation` for the
validation call, `handshake` for the session handshake (returning the
session identifier of the response header), `discovered_tools` for
`tools/list`. -/
def HeySolMCPClient.construct (api_key_validation : Except String Unit)
    (handshake : Except String String) (discovered_tools : List String) :
    Except ClientError MCPClient :=
  match api_key_validation with
  | .error e => .error (.validation ("API key validation failed: " ++ e))
  | .ok _ =>
      match handshake with
      | .error e => .error (.transport ("Failed to initialize MCP session: " ++ e))
      | .ok sid =>
          if sid = "" then
            .error (.transport "Failed to initialize MCP session: missing session id")
          else if discovered_tools = [] then
            .error (.transport "Failed to initialize MCP session: no tools discovered")
          else
            .ok ⟨sid, discovered_tools⟩

/-- Modelled from the spec: the mapping from a logical operation name to
the matching MCP tool name (the tool names appear in
`src/cli/profile.py`, `core_memory_tools`). -/
def toolNameFor : String → String
  | "ingest" => "memory_ingest"
  | "search" => "memory_search"
  | "get_spaces" => "memory_get_spaces"
  | "get_user_profile" => "get_user_profile"
  | op => op

/-- The unified facade state: transport preference, resolved availability
of the protocol transport, and the retained MCP client (if any); the REST
transport is always present. -/
structure HeySolClient where
  prefer_mcp : Bool
  mcp_available : Bool
  mcp_client : Option MCPClient
  deriving Repr, DecidableEq

/-- Modelled from the spec: `HeySolClient.__init__` (`heysol/client.py`)
is missing from the source tree. Spec sections 2 and 4.1: on construction
the facade probes protocol-transport availability, catching any failure
and downgrading to unavailable rather than propagating; on probe failure
no MCP client is retained. The `probe` argument is the outcome of the
availability probe; `.error` stands for any raised exception. -/
def HeySolClient.construct (prefer_mcp skip_mcp_init : Bool)
    (probe : Except String MCPClient) : HeySolClient :=
  if skip_mcp_init then ⟨prefer_mcp, false, none⟩
  else
    match probe with
    | .error _ => ⟨prefer_mcp, false, none⟩
    | .ok m => ⟨prefer_mcp, m.is_mcp_available, some m⟩

/-- Modelled from the spec: `get_preferred_access_method`
(`heysol/client.py`) is missing from the source tree. Spec section 4.2:
protocol transport iff preferred AND available AND a matching tool name
exists; the repository's unit test fixes the two return strings
`"mcp"` and `"direct_api"`. -/
def HeySolClient.get_preferred_access_method (c : HeySolClient)
    (operation : String) : String :=
  match c.mcp_client with
  | some m =>
      if c.prefer_mcp && c.mcp_available && m.tools.contains (toolNameFor operation) then
        "mcp"
      else
        "direct_api"
  | none => "direct_api"

/-- How many times each transport was invoked by one operation. -/
structure CallCounts where
  mcp_calls : Nat
  rest_calls : Nat
  deriving Repr, DecidableEq

/-- Modelled from the spec: per-operation dispatch of the facade
(spec section 4.2) — the selected transport is invoked exactly once, the
other not at all; invoking the protocol transport without a session/tool
mapping would raise the protocol-unavailable error (spec section 7). -/
def HeySolClient.runOperation (c : HeySolClient) (operation : String) :
    Except ClientError CallCounts :=
  if c.get_preferred_access_method operation = "mcp" then
    match c.mcp_client with
    | some _ => .ok ⟨1, 0⟩
    | none => .error (.mcpUnavailable "MCP transport is not available")
  else
    .ok ⟨0, 1⟩

/-! ## Identifier format check -/

/-- The placeholder blacklist of the identifier sanity check. -/
def placeholderBlacklist : List String := ["invalid", "test"]

/-- Modelled from the spec: `_is_valid_id_format`
(`heysol/clients/api_client.py`) is missing from the source tree.
Spec section 4.3: a lookup-key string must be of non-trivial length and
must not match a small blacklist of placeholder words; non-trivial length
is read as at least three characters after trimming whitespace (the
repository's unit test rejects `"ab"` as too short and `"   "` as
empty). -/
def isValidIdFormat (s : String) : Bool :=
  let t := strTrim s
  decide (3 ≤ t.length) && !(placeholderBlacklist.contains t)

/-! ## Theorems -/

/-- C3: a configuration whose api key does not start with `"rc_pat_"`, or
whose timeout lies outside `[1, 300]`, fails construction with a
validation error; every well-formed configuration constructs successfully
with the supplied field values, the api key may be omitted, and the
defaulted construction has timeout 60. -/
theorem C3_config_validation :
    (∀ (k : Option String) (b m p s : String) (t : Int),
        (∀ key, k = some key → strStartsWith key "rc_pat_" = true) →
        1 ≤ t → t ≤ 300 →
        HeySolConfig.build k b m p s t = .ok ⟨k, b, m, p, s, t⟩) ∧
    (∀ (k b m p s : String) (t : Int),
        strStartsWith k "rc_pat_" = false →
        ∃ msg, HeySolConfig.build (some k) b m p s t = .error (.validation msg)) ∧
    (∀ (k : Option String) (b m p s : String) (t : Int),
        (t < 1 ∨ 300 < t) →
        ∃ msg, HeySolConfig.build k b m p s t = .error (.validation msg)) ∧
    HeySolConfig.buildDefaults =
      .ok ⟨none, DEFAULT_BASE_URL, DEFAULT_MCP_URL, DEFAULT_PROFILE_URL,
           DEFAULT_SOURCE, 60⟩ := by
  refine ⟨?_, ?_, ?_, rfl⟩
  · intro k b m p s t hk h1 h2
    have hni : ¬ (t < 1 ∨ 300 < t) := by omega
    cases k with
    | none => simp [HeySolConfig.build, hni]
    | some key => simp [HeySolConfig.build, hni, hk key rfl]
  · intro k b m p s t hk
    by_cases ht : t < 1 ∨ 300 < t
    · exact ⟨"Input should be within the timeout bounds",
        by simp [HeySolConfig.build, ht]⟩
    · exact ⟨"API key must start with 'rc_pat_'",
        by simp [HeySolConfig.build, ht, hk]⟩
  · intro k b m p s t ht
    cases k with
    | none => exact ⟨"Input should be within the timeout bounds",
        by simp [HeySolConfig.build, ht]⟩
    | some key => exact ⟨"Input should be within the timeout bounds",
        by simp [HeySolConfig.build, ht]⟩

/-- Witness for C3 at concrete inputs. -/
theorem C3_config_validation_witness :
    HeySolConfig.build (some "rc_pat_abc") "b" "m" "p" "s" 30 =
      .ok ⟨some "rc_pat_abc", "b", "m", "p", "s", 30⟩ ∧
    (∃ msg, HeySolConfig.build (some "invalid_key") "b" "m" "p" "s" 30 =
      .error (.validation msg)) ∧
    (∃ msg, HeySolConfig.build none "b" "m" "p" "s" 0 =
      .error (.validation msg)) :=
  ⟨C3_config_validation.1 (some "rc_pat_abc") "b" "m" "p" "s" 30
      (fun key hk => by cases hk; decide) (by decide) (by decide),
   C3_config_validation.2.1 "invalid_key" "b" "m" "p" "s" 30 (by decide),
   C3_config_validation.2.2.1 none "b" "m" "p" "s" 0 (Or.inl (by decide))⟩

/-- C4: each empty required string — ingestion body, search query, space
name, webhook secret — makes the corresponding request-model construction
fail with the distinguished validation error, which is a different
constructor of `ClientError` from the transport/network errors; the
builders are pure, so the failure happens before any network request
exists. -/
theorem C4_empty_required_strings :
    (∀ rt md src sid spid, ∃ msg,
        IngestRequest.build "" rt md src sid spid = .error (.validation msg)) ∧
    (∀ sids inc, ∃ msg,
        SearchRequest.build "" sids inc = .error (.validation msg)) ∧
    (∀ d, ∃ msg, CreateSpaceRequest.build "" d = .error (.validation msg)) ∧
    (∀ url, ∃ msg,
        RegisterWebhookRequest.build url "" = .error (.validation msg)) ∧
    (∀ msg msg', ClientError.validation msg ≠ .transport msg' ∧
        ClientError.validation msg ≠ .mcpUnavailable msg') := by
  refine ⟨?_, ?_, ?_, ?_, ?_⟩
  · intro rt md src sid spid; exact ⟨_, rfl⟩
  · intro sids inc; exact ⟨_, rfl⟩
  · intro d; exact ⟨_, rfl⟩
  · intro url; exact ⟨_, rfl⟩
  · intro msg msg'; exact ⟨by simp, by simp⟩

/-- C7: contrary to the claim (and to the repository's own unit test
`test_register_webhook_validation`, which expects construction with
`url="invalid-url"` to raise "Input should be a valid URL"), the source's
webhook request models declare `url` as a plain unconstrained `str`, so a
non-URL string is accepted by both the registration and the update model. -/
theorem C7_webhook_url_not_validated :
    RegisterWebhookRequest.build "invalid-url" "secret" =
      .ok ⟨"invalid-url", "secret"⟩ ∧
    UpdateWebhookRequest.build "invalid-url" ["push"] "secret" true =
      .ok ⟨"invalid-url", ["push"], "secret", true⟩ :=
  ⟨rfl, rfl⟩

/-- C8: the identifier format check accepts a string exactly when its
trimmed form has non-trivial length and is not a blacklisted placeholder
word; in particular it rejects the empty string, whitespace-only strings,
too-short strings and the placeholders, and accepts ordinary
identifiers. -/
theorem C8_id_format_check :
    (∀ s, isValidIdFormat s = true ↔
        (3 ≤ (strTrim s).length ∧ strTrim s ∉ placeholderBlacklist)) ∧
    isValidIdFormat "valid-id-123" = true ∧
    isValidIdFormat "cmg2ulh5r06kanx1vn3sshzrx" = true ∧
    isValidIdFormat "" = false ∧
    isValidIdFormat "   " = false ∧
    isValidIdFormat "invalid" = false ∧
    isValidIdFormat "test" = false ∧
    isValidIdFormat "ab" = false := by
  refine ⟨?_, by decide, by decide, by decide, by decide, by decide,
          by decide, by decide⟩
  intro s
  simp [isValidIdFormat]

/-- Reading the metadata object back inverts writing it. -/
theorem jToMeta_metaToJ (m : List (String × String)) :
    jToMeta (metaToJ m) = some m := by
  induction m with
  | nil => rfl
  | cons hd tl ih =>
      simp only [metaToJ, jToMeta, List.map_cons, jFieldsToMeta] at ih ⊢
      simp [ih]

/-- C6: serializing a valid `IngestRequest` (the model with the
internal/wire aliasing scheme) to its wire representation and parsing
that representation back yields a model with all field values equal to
the original's. -/
theorem C6_ingest_roundtrip (r : IngestRequest)
    (hb : r.episode_body ≠ "") (hs : r.source ≠ "") :
    IngestRequest.parseWire (IngestRequest.dumpByAlias r) = .ok r := by
  have h1 : lookup2 (IngestRequest.dumpByAlias r) "episodeBody" "episode_body" =
      some (.jstr r.episode_body) := rfl
  have h2 : lookup2 (IngestRequest.dumpByAlias r) "referenceTime" "reference_time" =
      some (.jstr r.reference_time) := rfl
  have h3 : lookup2 (IngestRequest.dumpByAlias r) "metadata" "metadata" =
      some (metaToJ r.metadata) := rfl
  have h4 : lookup2 (IngestRequest.dumpByAlias r) "source" "source" =
      some (.jstr r.source) := rfl
  have h5 : lookup2 (IngestRequest.dumpByAlias r) "sessionId" "session_id" =
      some (.jstr r.session_id) := rfl
  have h6 : lookup2 (IngestRequest.dumpByAlias r) "spaceId" "space_id" =
      some (match r.space_id with
            | some s => .jstr s
            | none => .jnull) := rfl
  cases hsp : r.space_id with
  | none =>
      simp [IngestRequest.parseWire, reqMinStr, optStr, optNullStr, optMetadata,
            h1, h2, h3, h4, h5, h6, hsp, hb, hs, jToMeta_metaToJ]
      cases r
      simp_all
      rfl
  | some sp =>
      simp [IngestRequest.parseWire, reqMinStr, optStr, optNullStr, optMetadata,
            h1, h2, h3, h4, h5, h6, hsp, hb, hs, jToMeta_metaToJ]
      cases r
      simp_all
      rfl

/-- Witness for C6 at a concrete valid instance. -/
theorem C6_ingest_roundtrip_witness :
    IngestRequest.parseWire (IngestRequest.dumpByAlias
      ⟨"Test content", DEFAULT_REFERENCE_TIME, [("k", "v")], "test-source",
       "session-123", some "space-456"⟩) =
    .ok ⟨"Test content", DEFAULT_REFERENCE_TIME, [("k", "v")], "test-source",
         "session-123", some "space-456"⟩ :=
  C6_ingest_roundtrip
    ⟨"Test content", DEFAULT_REFERENCE_TIME, [("k", "v")], "test-source",
     "session-123", some "space-456"⟩ (by decide) (by decide)

/-- On success, the pydantic constructor stores exactly the supplied
values. -/
theorem build_ok_fields {k : Option String} {b m p s : String} {t : Int}
    {c : HeySolConfig} (h : HeySolConfig.build k b m p s t = .ok c) :
    c = ⟨k, b, m, p, s, t⟩ := by
  unfold HeySolConfig.build at h
  by_cases ht : t < 1 ∨ 300 < t
  · simp [ht] at h
  · cases k with
    | none =>
        simp [ht] at h
        exact h.symm
    | some key =>
        by_cases hk : strStartsWith key "rc_pat_" = true
        · simp [ht, hk] at h
          exact h.symm
        · simp [ht, hk] at h

/-- Re-reading the API key from the same environment is a no-op. -/
theorem fillKey_self (v : Option String) : fillKey v v = v := by
  cases v with
  | none => rfl
  | some s => simp [fillKey]

/-- C5 as stated is false on the code: `load_config` tests its explicit
arguments for Python truthiness, so an explicitly given empty-string api
key does not override — with `HEYSOL_API_KEY` set to `"rc_pat_env"` and
the explicit argument `api_key=""`, the effective api key is the
environment value, not the given argument. -/
theorem C5_counterexample :
    load_config ⟨some "rc_pat_env", none, none, none, none, none⟩
        (some "") none none =
      .ok ⟨some "rc_pat_env", DEFAULT_BASE_URL, DEFAULT_MCP_URL,
           DEFAULT_PROFILE_URL, DEFAULT_SOURCE, 60⟩ ∧
    (some "rc_pat_env" : Option String) ≠ some "" :=
  ⟨rfl, by decide⟩

/-- C5 (amended): for each configuration field, the effective value after
the CLI loader is the explicit argument when a non-empty one is given
(possible for api key, base URL and source; an empty explicit argument is
falsy and is ignored), otherwise the environment variable when it is set
and non-empty, otherwise the built-in default — independently per field;
the MCP URL and profile URL take environment over default, and the
timeout is the parsed environment value (60 when unset). -/
theorem C5_config_precedence (e : Env) (ak bu so : Option String)
    (cfg : HeySolConfig) (h : load_config e ak bu so = .ok cfg) :
    (∀ x, ak = some x → x ≠ "" → cfg.api_key = some x) ∧
    ((ak = none ∨ ak = some "") → cfg.api_key = e.heysol_api_key) ∧
    (∀ x, bu = some x → x ≠ "" → cfg.base_url = x) ∧
    ((bu = none ∨ bu = some "") →
        cfg.base_url = pyOr e.heysol_base_url DEFAULT_BASE_URL) ∧
    (∀ x, so = some x → x ≠ "" → cfg.source = x) ∧
    ((so = none ∨ so = some "") →
        cfg.source = pyOr e.heysol_source DEFAULT_SOURCE) ∧
    cfg.mcp_url = pyOr e.heysol_mcp_url DEFAULT_MCP_URL ∧
    cfg.profile_url = pyOr e.heysol_profile_url DEFAULT_PROFILE_URL ∧
    parseTimeoutEnv e.heysol_timeout = .ok cfg.timeout := by
  unfold load_config at h
  cases h0 : HeySolConfig.fromEnv e with
  | error err => rw [h0] at h; exact absurd h (by simp)
  | ok c0 =>
      rw [h0] at h
      simp only [Except.ok.injEq] at h
      unfold HeySolConfig.fromEnv at h0
      cases h1 : parseTimeoutEnv e.heysol_timeout with
      | error err => rw [h1] at h0; exact absurd h0 (by simp)
      | ok t =>
          rw [h1] at h0
          have hc0 := build_ok_fields h0
          subst hc0
          subst h
          refine ⟨?_, ?_, ?_, ?_, ?_, ?_, rfl, rfl, rfl⟩
          · intro x hx hne
            subst hx
            simp [overrideKey, fillKey, hne]
          · rintro (hak | hak) <;> subst hak <;>
              simp [overrideKey, fillKey_self]
          · intro x hx hne
            subst hx
            simp [overrideStr, hne]
          · rintro (hbu | hbu) <;> subst hbu <;> simp [overrideStr]
          · intro x hx hne
            subst hx
            simp [overrideStr, hne]
          · rintro (hso | hso) <;> subst hso <;> simp [overrideStr]

/-- Witness for the amended C5 at a concrete environment and arguments:
the explicit api key and source override, the base URL comes from the
environment, the MCP URL from the default. -/
theorem C5_config_precedence_witness :
    HeySolConfig.api_key ⟨some "rc_pat_x", "https://env.example.com",
        DEFAULT_MCP_URL, DEFAULT_PROFILE_URL, "cli-source", 60⟩ =
      some "rc_pat_x" ∧
    HeySolConfig.base_url ⟨some "rc_pat_x", "https://env.example.com",
        DEFAULT_MCP_URL, DEFAULT_PROFILE_URL, "cli-source", 60⟩ =
      pyOr (some "https://env.example.com") DEFAULT_BASE_URL ∧
    HeySolConfig.source ⟨some "rc_pat_x", "https://env.example.com",
        DEFAULT_MCP_URL, DEFAULT_PROFILE_URL, "cli-source", 60⟩ =
      "cli-source" :=
  ⟨(C5_config_precedence
      ⟨none, some "https://env.example.com", none, none, none, none⟩
      (some "rc_pat_x") none (some "cli-source") _ rfl).1
      "rc_pat_x" rfl (by decide),
   (C5_config_precedence
      ⟨none, some "https://env.example.com", none, none, none, none⟩
      (some "rc_pat_x") none (some "cli-source") _ rfl).2.2.2.1
      (Or.inl rfl),
   (C5_config_precedence
      ⟨none, some "https://env.example.com", none, none, none, none⟩
      (some "rc_pat_x") none (some "cli-source") _ rfl).2.2.2.2.1
      "cli-source" rfl (by decide)⟩

/-- C1: when the availability probe raises any exception during unified
client construction, construction still succeeds (it is a total function
into facade states), the facade records the protocol transport as
unavailable with no MCP client retained, and every subsequent operation
resolves to the REST transport and runs without a protocol-unavailable
error. -/
theorem C1_probe_failure_falls_back (prefer : Bool) (exc op : String) :
    (HeySolClient.construct prefer false (.error exc)).mcp_available = false ∧
    (HeySolClient.construct prefer false (.error exc)).mcp_client = none ∧
    (HeySolClient.construct prefer false (.error exc)).get_preferred_access_method op
      = "direct_api" ∧
    (HeySolClient.construct prefer false (.error exc)).runOperation op =
      .ok ⟨0, 1⟩ := by
  refine ⟨rfl, rfl, rfl, ?_⟩
  simp [HeySolClient.runOperation, HeySolClient.get_preferred_access_method,
        HeySolClient.construct]

/-- C2: for a facade built from a successful probe (and not skipping the
probe), an operation selects the protocol transport iff the facade
prefers it AND the probe resolved to available AND a matching tool name
exists; in that case the operation invokes the protocol transport exactly
once and never REST, and in every other case the preferred method is
`"direct_api"` and the operation invokes REST exactly once. -/
theorem C2_transport_selection (prefer : Bool) (m : MCPClient) (op : String) :
    ((HeySolClient.construct prefer false (.ok m)).get_preferred_access_method op
        = "mcp" ↔
      (prefer = true ∧ m.is_mcp_available = true ∧
       m.tools.contains (toolNameFor op) = true)) ∧
    ((HeySolClient.construct prefer false (.ok m)).get_preferred_access_method op
        = "mcp" →
      (HeySolClient.construct prefer false (.ok m)).runOperation op = .ok ⟨1, 0⟩) ∧
    ((HeySolClient.construct prefer false (.ok m)).get_preferred_access_method op
        ≠ "mcp" →
      (HeySolClient.construct prefer false (.ok m)).get_preferred_access_method op
          = "direct_api" ∧
      (HeySolClient.construct prefer false (.ok m)).runOperation op = .ok ⟨0, 1⟩) := by
  have hg : (HeySolClient.construct prefer false (.ok m)).get_preferred_access_method op
      = (if prefer && m.is_mcp_available && m.tools.contains (toolNameFor op)
         then "mcp" else "direct_api") := rfl
  have hro : (HeySolClient.construct prefer false (.ok m)).runOperation op
      = (if (HeySolClient.construct prefer false (.ok m)).get_preferred_access_method op
            = "mcp"
         then .ok ⟨1, 0⟩ else .ok ⟨0, 1⟩) := rfl
  cases hb : prefer && m.is_mcp_available && m.tools.contains (toolNameFor op) with
  | true =>
      have hm : (HeySolClient.construct prefer false (.ok m)).get_preferred_access_method op
          = "mcp" := by rw [hg, hb]; decide
      simp only [Bool.and_eq_true] at hb
      refine ⟨iff_of_true hm ⟨hb.1.1, hb.1.2, hb.2⟩, ?_, ?_⟩
      · intro _
        rw [hro, if_pos hm]
      · intro hne
        exact absurd hm hne
  | false =>
      have hm : (HeySolClient.construct prefer false (.ok m)).get_preferred_access_method op
          = "direct_api" := by rw [hg, hb]; decide
      have hne : (HeySolClient.construct prefer false (.ok m)).get_preferred_access_method op
          ≠ "mcp" := by rw [hm]; decide
      refine ⟨?_, ?_, ?_⟩
      · constructor
        · intro hstr
          exact absurd hstr hne
        · rintro ⟨hp, ha, ht⟩
          rw [hp, ha, ht] at hb
          simp at hb
      · intro hstr
        exact absurd hstr hne
      · intro _
        exact ⟨hm, by rw [hro, if_neg hne]⟩

/-- Witness for C2 at a concrete client: prefer on, probe available, the
`ingest` operation matching the `memory_ingest` tool — the protocol
transport is selected and invoked exactly once. -/
theorem C2_transport_selection_witness :
    (HeySolClient.construct true false
      (.ok ⟨"session-123", ["memory_ingest"]⟩)).runOperation "ingest" =
      .ok ⟨1, 0⟩ ∧
    (HeySolClient.construct false false
      (.ok ⟨"session-123", ["memory_ingest"]⟩)).runOperation "ingest" =
      .ok ⟨0, 1⟩ :=
  ⟨(C2_transport_selection true ⟨"session-123", ["memory_ingest"]⟩ "ingest").2.1
      (by decide),
   ((C2_transport_selection false ⟨"session-123", ["memory_ingest"]⟩ "ingest").2.2
      (by decide)).2⟩

/-- C9: the protocol-transport invariant — a successfully constructed MCP
client always carries a session identifier together with a non-empty tool
mapping (and so reports availability), while a failed API-key validation
or a failed handshake makes construction raise (a validation error,
respectively a transport error) instead of producing a partial client. -/
theorem C9_mcp_session_invariant :
    (∀ v hs tl c, HeySolMCPClient.construct v hs tl = .ok c →
        c.session_id ≠ "" ∧ c.tools ≠ [] ∧ c.is_mcp_available = true) ∧
    (∀ e hs tl, ∃ msg,
        HeySolMCPClient.construct (.error e) hs tl = .error (.validation msg)) ∧
    (∀ e tl, ∃ msg,
        HeySolMCPClient.construct (.ok ()) (.error e) tl =
          .error (.transport msg)) := by
  refine ⟨?_, ?_, ?_⟩
  · intro v hs tl c h
    unfold HeySolMCPClient.construct at h
    cases v with
    | error e => exact absurd h (by simp)
    | ok u =>
        cases hs with
        | error e => exact absurd h (by simp)
        | ok sid =>
            by_cases h1 : sid = ""
            · simp [h1] at h
            · by_cases h2 : tl = []
              · simp [h1, h2] at h
              · simp [h1, h2] at h
                subst h
                refine ⟨h1, h2, ?_⟩
                cases tl with
                | nil => exact absurd rfl h2
                | cons a l => simp [MCPClient.is_mcp_available, h1]
  · intro e hs tl
    exact ⟨"API key validation failed: " ++ e, rfl⟩
  · intro e tl
    exact ⟨"Failed to initialize MCP session: " ++ e, rfl⟩

/-- Witness for C9: a successful construction at concrete remote outcomes
yields a client with a session and a populated tool mapping. -/
theorem C9_mcp_session_invariant_witness :
    MCPClient.session_id ⟨"session-123", ["memory_ingest"]⟩ ≠ "" ∧
    MCPClient.tools ⟨"session-123", ["memory_ingest"]⟩ ≠ [] ∧
    MCPClient.is_mcp_available ⟨"session-123", ["memory_ingest"]⟩ = true :=
  C9_mcp_session_invariant.1 (.ok ()) (.ok "session-123") ["memory_ingest"]
    ⟨"session-123", ["memory_ingest"]⟩ rfl

end HeySol
